import Mathlib

/-!
Shallow embedding of the policy-gated credential verification workflow of the
bind-protocol examples repository (verifier-example of the vehicle-risk domain,
verifier-example of the credit domain, and the demo reference scorer).

The embedding keeps the source's structure: policies are records mirroring the
PolicyLike TypeScript interface, claim values mirror the JS values a credential
mapping may hold, `process.exit(1)` branches become structured rejection values,
and the shared-proof orchestration becomes a function that returns the list of
workflow steps it executed together with its outcome.
-/

namespace BindExamples

/-- One entry of a band table: `{ label: string }`. -/
structure Band where
  label : String
deriving DecidableEq

/-- The derivation descriptor of a policy output: `{ kind, bands? }`. -/
structure Derive where
  kind : String
  bands : Option (List Band)
deriving DecidableEq

/-- A declared policy output: `{ name, type, derive }`. -/
structure Output where
  name : String
  type : String
  derive : Derive
deriving DecidableEq

/-- The policy subject descriptor: `{ type: string }`. -/
structure Subject where
  type : String
deriving DecidableEq

/-- Policy metadata (only the title is read by the verifiers). -/
structure Metadata where
  title : Option String
deriving DecidableEq

/-- The disclosure descriptor: `{ exposeClaims?: string[] }`. -/
structure Disclosure where
  exposeClaims : Option (List String)
deriving DecidableEq

/-- The validity descriptor: `{ ttl?: string }`. -/
structure Validity where
  ttl : Option String
deriving DecidableEq

/-- The `PolicyLike` interface shared by both verifier examples. -/
structure Policy where
  id : String
  version : String
  metadata : Option Metadata
  subject : Subject
  outputs : List Output
  disclosure : Option Disclosure
  validity : Option Validity
deriving DecidableEq

/-- A raw disclosed claim value: JS number, boolean, string, or null.
Numbers are modelled as integers (all claim values this repository
produces are whole numbers). -/
inductive ClaimValue where
  | num (n : Int)
  | bool (b : Bool)
  | str (s : String)
  | nullv
deriving DecidableEq

/-- The credential claims mapping (`Record<string, unknown>`); entry order
is the iteration order of `Object.entries`. -/
def ClaimMap : Type := List (String × ClaimValue)

/-- JS nullish coalescing `a ?? b` on claim lookups: `none` models an absent
key (undefined), `nullv` models a present null value; both fall through. -/
def jsCoalesce (a b : Option ClaimValue) : Option ClaimValue :=
  match a with
  | some ClaimValue.nullv => b
  | some v => some v
  | none => b

/-- Value of a decimal digit list, most significant first (the value
`parseInt` assigns to a digit-only match group). -/
def digitsToNat (cs : List Char) : Nat :=
  cs.foldl (fun a c => 10 * a + (c.toNat - 48)) 0

/-- Model of the JS `Number()` coercion restricted to integer numerals:
an empty string is `0`, an optionally negated digit sequence is its value,
and every other string is NaN (modelled as `none`).  Fractional and
exponent forms do not occur in this repository's claim values. -/
def jsNumberOfString (s : String) : Option Int :=
  match s.data with
  | [] => some 0
  | '-' :: rest =>
      if rest ≠ [] ∧ rest.all Char.isDigit then some (-(digitsToNat rest : Int)) else none
  | cs =>
      if cs.all Char.isDigit then some ((digitsToNat cs : Int)) else none

/-- Built-in ordered risk band labels (`RISK_BANDS` in the risk verifier). -/
def RISK_BANDS : List String := ["HIGH", "MEDIUM", "LOW"]

/-- The `bandIndex` local of `resolveBandLabel`: the claim under the name
"riskBand", else under "outputValue"; a number is used directly, a string
goes through `Number()`, anything else is index 0.  `none` models NaN. -/
def claimBandIndex (claims : ClaimMap) : Option Int :=
  match jsCoalesce (List.lookup ("riskBand") claims) (List.lookup ("outputValue") claims) with
  | some (ClaimValue.num n) => some n
  | some (ClaimValue.str s) => jsNumberOfString s
  | _ => some 0

/-- JS array indexing `l[i]` with a possibly negative or NaN index:
defined only for an integer index within bounds. -/
def optIndex {α : Type} (l : List α) (i : Option Int) : Option α :=
  match i with
  | none => none
  | some k => if k < 0 then none else l.get? k.toNat

/-- How a band index prints inside the synthesized label (template
interpolation of the JS number). -/
def renderIdx (i : Option Int) : String :=
  match i with
  | some k => toString k
  | none => "NaN"

/-- The `policy?.outputs?.[0]?.derive?.bands` optional chain of
`resolveBandLabel`: the band table of the FIRST declared output. -/
def policyFirstBands (p? : Option Policy) : Option (List Band) :=
  p?.bind fun p => (p.outputs.get? 0).bind fun o => o.derive.bands

/-- `resolveBandLabel` of the risk verifier: claim index into the first
output's band table, else into `RISK_BANDS`, else a synthesized label. -/
def resolveBandLabel (claims : ClaimMap) (p? : Option Policy) : String :=
  let bandIndex := claimBandIndex claims
  match (policyFirstBands p?).bind (fun bs => optIndex bs bandIndex) with
  | some b => b.label
  | none =>
      match optIndex RISK_BANDS bandIndex with
      | some l => l
      | none => ("Band ") ++ renderIdx bandIndex

/-- Structured reasons for the `process.exit(1)` branches of the two
`validatePolicy` functions. -/
inductive VErr where
  | badVersion (v : String)
  | badSubject (t : String)
  | missingOutput (name : String)
deriving DecidableEq

/-- Result of a `validatePolicy` run: the ordered findings on success, or
the fatal rejection reason. -/
inductive VResult where
  | passed (findings : List String)
  | rejected (e : VErr)
deriving DecidableEq

/-- JS `s.startsWith(pre)`, on the character lists of the strings. -/
def jsStartsWith (s pre : String) : Bool :=
  pre.data.isPrefixOf s.data

/-- The `policy.disclosure?.exposeClaims?.includes(name)` check. -/
def isDisclosed (p : Policy) (name : String) : Bool :=
  match p.disclosure with
  | some d => (d.exposeClaims.getD []).contains name
  | none => false

/-- Labels joined as `bands.map(b => b.label).join(", ")`. -/
def joinLabels (bs : List Band) : String :=
  String.intercalate (", ") (bs.map Band.label)

/-- The findings the risk-domain `validatePolicy` accumulates once all
fatal checks have passed (version, subject, output pushes, then the BAND
derivation and disclosure notes). -/
def riskFindings (p : Policy) (o : Output) : List String :=
  let base := [("Version: ") ++ p.version,
               ("Subject type: ") ++ p.subject.type,
               ("Has \"") ++ o.name ++ ("\" output (") ++ o.type ++ (")")]
  let withBand :=
    if o.derive.kind == ("BAND") then
      base ++ [("Uses BAND derivation")] ++
        (match o.derive.bands with
         | some bs => [("Risk bands: ") ++ joinLabels bs]
         | none => [])
    else base
  if isDisclosed p ("riskBand") then withBand ++ [("Risk band is disclosed")]
  else withBand

/-- `validatePolicy` of the vehicle-risk verifier: version must start with
"0.", subject type must be "vehicle", an output named "riskBand" must
exist; the BAND derivation and band labels are only recorded, never
enforced. -/
def validatePolicyRisk (p : Policy) : VResult :=
  if jsStartsWith p.version ("0.") then
    if p.subject.type == ("vehicle") then
      match p.outputs.find? (fun o => o.name == ("riskBand")) with
      | some o => VResult.passed (riskFindings p o)
      | none => VResult.rejected (VErr.missingOutput ("riskBand"))
    else VResult.rejected (VErr.badSubject p.subject.type)
  else VResult.rejected (VErr.badVersion p.version)

/-- The findings the credit-domain `validatePolicy` accumulates: the
subject type is pushed without any check. -/
def creditFindings (p : Policy) (o : Output) : List String :=
  let base := [("Version: ") ++ p.version,
               ("Subject type: ") ++ p.subject.type,
               ("Has \"") ++ o.name ++ ("\" output (") ++ o.type ++ (")")]
  let withKind :=
    if o.derive.kind == ("PASS_FAIL") then base ++ [("Uses PASS_FAIL derivation")]
    else base
  if isDisclosed p ("approved") then withKind ++ [("Approval status is disclosed")]
  else withKind

/-- `validatePolicy` of the credit verifier: version must start with "0.",
an output named "approved" must exist; the subject type is recorded but
not checked. -/
def validatePolicyCredit (p : Policy) : VResult :=
  if jsStartsWith p.version ("0.") then
    match p.outputs.find? (fun o => o.name == ("approved")) with
    | some o => VResult.passed (creditFindings p o)
    | none => VResult.rejected (VErr.missingOutput ("approved"))
  else VResult.rejected (VErr.badVersion p.version)

/-- `ageDays` of `checkFreshness`: `Math.floor((now - provedAt) / 86400000)`
where `provedAt` is `completedAt` when present, else the fallback
timestamp.  Times are epoch milliseconds; `Int.fdiv` is floor division. -/
def ageDaysOf (nowMs : Int) (completedAt : Option Int) (fallbackMs : Int) : Int :=
  (nowMs - completedAt.getD fallbackMs).fdiv 86400000

/-- Case-insensitive tail match used by the two TTL regexes: the char list
must be a non-empty digit sequence followed by the (upper or lower) unit
letter; yields the digits' value. -/
def matchTail (cs : List Char) (u l : Char) : Option Nat :=
  match cs.reverse with
  | [] => none
  | d :: midRev =>
      if (d == u || d == l) && (!midRev.isEmpty) && midRev.reverse.all Char.isDigit
      then some (digitsToNat midRev.reverse) else none

/-- The `/^P(\d+)D$/i` match of `checkFreshness`. -/
def isoMatch (s : String) : Option Nat :=
  match s.data with
  | [] => none
  | p :: rest => if p == 'P' || p == 'p' then matchTail rest 'D' 'd' else none

/-- The `/^(\d+)d$/i` match of `checkFreshness`. -/
def simpleMatch (s : String) : Option Nat :=
  matchTail s.data 'd' 'D'

/-- The `policy?.validity?.ttl` optional chain. -/
def ttlOf (p? : Option Policy) : Option String :=
  p?.bind fun p => p.validity.bind fun v => v.ttl

/-- `ttlDays` of `checkFreshness`: the TTL string (or the domain default
string when absent) parsed as `P<N>D`, else `<N>d`, else the domain
default day count. -/
def ttlDaysOfPolicy (dfltStr : String) (dflt : Nat) (p? : Option Policy) : Nat :=
  let ttlString := (ttlOf p?).getD dfltStr
  match isoMatch ttlString with
  | some n => n
  | none =>
      match simpleMatch ttlString with
      | some n => n
      | none => dflt

/-- Outcome of the freshness check (the expired branch calls
`process.exit(1)`). -/
inductive FreshStatus where
  | fresh
  | expired
deriving DecidableEq

/-- `checkFreshness` shared by both verifiers, parameterized by the domain
default TTL; passes iff `ageDays <= ttlDays`. -/
def checkFreshnessWith (dfltStr : String) (dflt : Nat) (nowMs : Int)
    (completedAt : Option Int) (fallbackMs : Int) (p? : Option Policy) : FreshStatus :=
  if ageDaysOf nowMs completedAt fallbackMs ≤ (ttlDaysOfPolicy dfltStr dflt p? : Int)
  then FreshStatus.fresh else FreshStatus.expired

/-- `checkFreshness` of the vehicle-risk verifier (default TTL "P90D"/90). -/
def riskCheckFreshness : Int → Option Int → Int → Option Policy → FreshStatus :=
  checkFreshnessWith ("P90D") 90

/-- `checkFreshness` of the credit verifier (default TTL "P30D"/30). -/
def creditCheckFreshness : Int → Option Int → Int → Option Policy → FreshStatus :=
  checkFreshnessWith ("P30D") 30

/-- `expectedScore` of the demo and prove-job scripts: baseline 50, +25
for mileage ≤ 3000, +15 for mileage ≤ 5000, +10 for max speed < 100,
clamped to at most 100.  The data-points input feeds only the
sufficient-data warning, never the score. -/
def expectedScore (mileage speedMax : Int) : Int :=
  let s0 : Int := 50
  let s1 := if mileage ≤ 3000 then s0 + 25 else s0
  let s2 := if mileage ≤ 5000 then s1 + 15 else s1
  let s3 := if speedMax < 100 then s2 + 10 else s2
  min 100 s3

/-- `expectedBand` of the demo and prove-job scripts: ≥ 71 is LOW,
≥ 41 is MEDIUM, else HIGH. -/
def expectedBand (score : Int) : String :=
  if score ≥ 71 then ("LOW") else if score ≥ 41 then ("MEDIUM") else ("HIGH")

/-- The `isApproved` predicate of the credit verifier's `displayResults`:
`value === 1 || value === true || value === "1"`. -/
def isApproved (v : ClaimValue) : Bool :=
  match v with
  | ClaimValue.num n => n == 1
  | ClaimValue.bool b => b == true
  | ClaimValue.str s => s == ("1")
  | ClaimValue.nullv => false

/-- The approval outcomes the `displayResults` loop produces: one boolean
per claims entry keyed "approved" or "outputValue"; absent keys produce
no outcome at all. -/
def approvedOutcomes : ClaimMap → List Bool
  | [] => []
  | (k, v) :: rest =>
      if k == ("approved") || k == ("outputValue") then
        isApproved v :: approvedOutcomes rest
      else approvedOutcomes rest

/-- A shared proof as the verifier reads it (timestamps in epoch
milliseconds; `policyId` and `completedAt` come from its `proveJob`). -/
structure SharedProof where
  proveJobId : String
  circuitName : String
  sharingOrgId : String
  createdAt : Int
  note : Option String
  revokedAt : Option Int
  expiresAt : Option Int
  policyId : Option String
  policySpec : Option Policy
  completedAt : Option Int
deriving DecidableEq

/-- An issued proof credential (only the jwt is consumed downstream). -/
structure Credential where
  credentialId : String
  format : String
  issuedAt : String
  jwt : String
deriving DecidableEq

/-- The result of the external credential verification call. -/
structure VerifyResult where
  valid : Bool
  issuer : String
  subject : Option String
  error : Option String
  claims : List (String × ClaimValue)
deriving DecidableEq

/-- The external client boundary of the shared-proof flow: policy fetch,
policy listing, credential issuance, credential verification.  `Except`
errors model thrown/caught failures. -/
structure VerifierEnv where
  getPolicy : String → Option Policy
  listPolicies : List Policy
  issueCredential : String → Except String Credential
  verifyCredential : String → Except String VerifyResult

/-- The workflow steps of the shared-proof orchestration that run after
the shared proof itself has been fetched. -/
inductive Event where
  | resolvePolicy
  | validatePolicy
  | checkFreshness
  | issueCredential
  | verifyCredential
  | report
deriving DecidableEq

/-- Reasons a verification run terminates with `process.exit(1)`. -/
inductive FatalReason where
  | revoked
  | sharedExpired
  | noPolicy
  | policyRejected (e : VErr)
  | proofExpired
  | issueFailed (m : String)
  | verifyError (m : String)
  | credentialInvalid (m : String)
deriving DecidableEq

/-- Terminal outcome of a verification run. -/
inductive Outcome where
  | success
  | fatal (r : FatalReason)
deriving DecidableEq

/-- The `new Date(expiresAt) < new Date()` strict comparison, guarded by
the truthiness of `expiresAt`. -/
def isPastExpiry (expiresAt : Option Int) (nowMs : Int) : Bool :=
  match expiresAt with
  | some e => decide (e < nowMs)
  | none => false

/-- The tail of `verifySharedProof` from the freshness check on: freshness,
credential issuance, credential verification, report.  `evs` is the trace
of the steps already executed. -/
def afterPolicyResolution (env : VerifierEnv) (sp : SharedProof) (nowMs : Int)
    (p? : Option Policy) (evs : List Event) : List Event × Outcome :=
  match riskCheckFreshness nowMs sp.completedAt sp.createdAt p? with
  | FreshStatus.expired => (evs ++ [Event.checkFreshness], Outcome.fatal FatalReason.proofExpired)
  | FreshStatus.fresh =>
      match env.issueCredential sp.proveJobId with
      | Except.error m =>
          (evs ++ [Event.checkFreshness, Event.issueCredential],
           Outcome.fatal (FatalReason.issueFailed m))
      | Except.ok cred =>
          match env.verifyCredential cred.jwt with
          | Except.error m =>
              (evs ++ [Event.checkFreshness, Event.issueCredential, Event.verifyCredential],
               Outcome.fatal (FatalReason.verifyError m))
          | Except.ok vr =>
              if vr.valid then
                (evs ++ [Event.checkFreshness, Event.issueCredential,
                         Event.verifyCredential, Event.report],
                 Outcome.success)
              else
                (evs ++ [Event.checkFreshness, Event.issueCredential, Event.verifyCredential],
                 Outcome.fatal (FatalReason.credentialInvalid (vr.error.getD (""))))

/-- `verifySharedProof` of the vehicle-risk verifier, as a step trace plus
outcome: revocation, expiry and policy-association preconditions first,
then policy resolution (embedded spec preferred, then fetch, then listing
scan), optional validation, and the shared tail. -/
def verifySharedProof (env : VerifierEnv) (sp : SharedProof) (nowMs : Int) :
    List Event × Outcome :=
  if sp.revokedAt.isSome then ([], Outcome.fatal FatalReason.revoked)
  else if isPastExpiry sp.expiresAt nowMs then ([], Outcome.fatal FatalReason.sharedExpired)
  else
    match sp.policyId with
    | none => ([], Outcome.fatal FatalReason.noPolicy)
    | some pid =>
        let policy : Option Policy :=
          match sp.policySpec with
          | some p => some p
          | none =>
              match env.getPolicy pid with
              | some p => some p
              | none => env.listPolicies.find? (fun q => q.id == pid)
        match policy with
        | none => afterPolicyResolution env sp nowMs none [Event.resolvePolicy]
        | some p =>
            match validatePolicyRisk p with
            | VResult.rejected e =>
                ([Event.resolvePolicy, Event.validatePolicy],
                 Outcome.fatal (FatalReason.policyRejected e))
            | VResult.passed _ =>
                afterPolicyResolution env sp nowMs (some p)
                  [Event.resolvePolicy, Event.validatePolicy]

/-- Spec-side shape of a TTL string matching `P<N>D` case-insensitively. -/
def spelledIso (s : String) (n : Nat) : Prop :=
  ∃ p mid d, s.data = p :: (mid ++ [d]) ∧ (p = 'P' ∨ p = 'p') ∧ (d = 'D' ∨ d = 'd') ∧
    mid ≠ [] ∧ mid.all Char.isDigit = true ∧ digitsToNat mid = n

/-- Spec-side shape of a TTL string matching `<N>d` case-insensitively. -/
def spelledSimple (s : String) (n : Nat) : Prop :=
  ∃ mid d, s.data = mid ++ [d] ∧ (d = 'd' ∨ d = 'D') ∧
    mid ≠ [] ∧ mid.all Char.isDigit = true ∧ digitsToNat mid = n

/-- A well-formed risk policy whose FIRST output is not the "riskBand"
output; the two outputs carry distinct band tables. -/
def polTwoOutputs : Policy :=
  { id := ("pol.two"), version := ("0.1.0"), metadata := none,
    subject := { type := ("vehicle") },
    outputs :=
      [ { name := ("other"), type := ("enum"),
          derive := { kind := ("BAND"), bands := some [ { label := ("ALPHA") } ] } },
        { name := ("riskBand"), type := ("enum"),
          derive := { kind := ("BAND"), bands := some [ { label := ("BETA") } ] } } ],
    disclosure := none, validity := none }

/-- A risk policy whose first output carries a three-entry band table. -/
def polThreeBands : Policy :=
  { id := ("pol.three"), version := ("0.1.0"), metadata := none,
    subject := { type := ("vehicle") },
    outputs :=
      [ { name := ("riskBand"), type := ("enum"),
          derive := { kind := ("BAND"),
                      bands := some [ { label := ("B0") }, { label := ("B1") },
                                      { label := ("B2") } ] } } ],
    disclosure := none, validity := none }

/-- The "riskBand" output with an empty band table. -/
def riskBandOutputEmpty : Output :=
  { name := ("riskBand"), type := ("enum"),
    derive := { kind := ("BAND"), bands := some [] } }

/-- A risk policy whose BAND-derived "riskBand" output has an EMPTY band
table. -/
def emptyBandsPolicy : Policy :=
  { id := ("pol.empty"), version := ("0.1.0"), metadata := none,
    subject := { type := ("vehicle") },
    outputs := [riskBandOutputEmpty],
    disclosure := none, validity := none }

/-- A risk policy whose BAND-derived "riskBand" output has NO band table. -/
def noBandsPolicy : Policy :=
  { id := ("pol.nobands"), version := ("0.1.0"), metadata := none,
    subject := { type := ("vehicle") },
    outputs := [ { name := ("riskBand"), type := ("enum"),
                   derive := { kind := ("BAND"), bands := none } } ],
    disclosure := none, validity := none }

/-- A risk policy with a one-entry band table on its first output (shorter
than the three-entry default table). -/
def polShort : Policy :=
  { id := ("pol.short"), version := ("0.1.0"), metadata := none,
    subject := { type := ("vehicle") },
    outputs := [ { name := ("riskBand"), type := ("enum"),
                   derive := { kind := ("BAND"), bands := some [ { label := ("ONLY") } ] } } ],
    disclosure := none, validity := none }

/-- A credit-shaped policy whose subject type belongs to the OTHER domain
("vehicle"): the credit validator accepts it regardless. -/
def creditForeignSubject : Policy :=
  { id := ("pol.credit"), version := ("0.1.0"), metadata := none,
    subject := { type := ("vehicle") },
    outputs := [ { name := ("approved"), type := ("boolean"),
                   derive := { kind := ("PASS_FAIL"), bands := none } } ],
    disclosure := some { exposeClaims := some [("approved")] }, validity := none }

/-- A risk-shaped policy with a non-"vehicle" subject type. -/
def polBoat : Policy :=
  { id := ("pol.boat"), version := ("0.2.0"), metadata := none,
    subject := { type := ("boat") },
    outputs := [ { name := ("riskBand"), type := ("enum"),
                   derive := { kind := ("BAND"), bands := none } } ],
    disclosure := none, validity := none }

/-- A policy with a non-"0." version prefix. -/
def polBadVersion : Policy :=
  { id := ("pol.v1"), version := ("1.0.0"), metadata := none,
    subject := { type := ("vehicle") },
    outputs := [ { name := ("riskBand"), type := ("enum"),
                   derive := { kind := ("BAND"), bands := none } } ],
    disclosure := none, validity := none }

/-- A policy carrying the TTL string "P45D". -/
def polP45 : Policy :=
  { id := ("pol.p45"), version := ("0.1.0"), metadata := none,
    subject := { type := ("vehicle") }, outputs := [],
    disclosure := none, validity := some { ttl := some ("P45D") } }

/-- A client boundary whose every external call fails or is empty (the
shared-proof preconditions never reach it). -/
def envTrivial : VerifierEnv :=
  { getPolicy := fun _ => none, listPolicies := [],
    issueCredential := fun _ => Except.error (""),
    verifyCredential := fun _ => Except.error ("") }

/-- A shared proof carrying a non-null revocation timestamp. -/
def spRevoked : SharedProof :=
  { proveJobId := ("job1"), circuitName := ("circ"), sharingOrgId := ("org"),
    createdAt := 0, note := none, revokedAt := some 5, expiresAt := none,
    policyId := some ("pid"), policySpec := none, completedAt := none }

/-! ## Helper lemmas: the TTL regex matchers against their spelled-out shapes -/

theorem matchTail_eq_some_iff (cs : List Char) (u l : Char) (n : Nat) :
    matchTail cs u l = some n ↔
      ∃ mid d, cs = mid ++ [d] ∧ (d = u ∨ d = l) ∧ mid ≠ [] ∧
        mid.all Char.isDigit = true ∧ digitsToNat mid = n := by
  cases h : cs.reverse with
  | nil =>
      have hcs : cs = [] := by simpa using congrArg List.reverse h
      subst hcs
      simp [matchTail]
  | cons d0 midRev =>
      have hcs : cs = midRev.reverse ++ [d0] := by
        have h2 := congrArg List.reverse h
        simpa using h2
      constructor
      · intro hm
        simp only [matchTail, h] at hm
        split at hm
        case isTrue hcond =>
          simp only [Bool.and_eq_true, Bool.or_eq_true, beq_iff_eq,
            Bool.not_eq_true', List.isEmpty_eq_false] at hcond
          obtain ⟨⟨h1, h2⟩, h3⟩ := hcond
          have hval : digitsToNat midRev.reverse = n := by
            simpa using hm
          refine ⟨midRev.reverse, d0, hcs, h1, ?_, h3, hval⟩
          intro hx
          exact h2 (by simpa using congrArg List.reverse hx)
        case isFalse hcond => simp at hm
      · rintro ⟨mid, d, hmd, hdu, hne, hdig, hval⟩
        have hrev : d :: mid.reverse = d0 :: midRev := by
          have h3 := congrArg List.reverse hmd
          rw [h] at h3
          simpa using h3.symm
        have hd : d = d0 := by injection hrev
        have hmr : mid.reverse = midRev := by injection hrev
        subst hd
        subst hmr
        simp only [matchTail, h]
        have c1 : (d == u || d == l) = true := by
          rcases hdu with h' | h' <;> simp [h']
        have c2 : (!mid.reverse.isEmpty) = true := by
          cases mid with
          | nil => exact absurd rfl hne
          | cons a as => simp
        have c3 : (mid.reverse.reverse.all Char.isDigit) = true := by
          simpa using hdig
        have hcondT : ((d == u || d == l) && (!mid.reverse.isEmpty) &&
            mid.reverse.reverse.all Char.isDigit) = true := by
          rw [c1, c2, c3]
          rfl
        rw [if_pos hcondT]
        simp [hval]

theorem isoMatch_eq_some_iff (s : String) (n : Nat) :
    isoMatch s = some n ↔ spelledIso s n := by
  cases hd : s.data with
  | nil => simp [isoMatch, hd, spelledIso]
  | cons p rest =>
      constructor
      · intro hm
        simp only [isoMatch, hd] at hm
        by_cases hp : (p == 'P' || p == 'p') = true
        · rw [if_pos hp] at hm
          obtain ⟨mid, d, hrest, hdd, hne, hdig, hval⟩ :=
            (matchTail_eq_some_iff rest 'D' 'd' n).mp hm
          refine ⟨p, mid, d, ?_, ?_, hdd, hne, hdig, hval⟩
          · rw [hd, hrest]
          · simpa using hp
        · rw [if_neg hp] at hm
          simp at hm
      · rintro ⟨p', mid, d, hdata, hp, hdd, hne, hdig, hval⟩
        rw [hd] at hdata
        have hpp : p = p' := by injection hdata
        have hrest : rest = mid ++ [d] := by injection hdata
        subst hpp
        simp only [isoMatch, hd]
        rw [if_pos (by rcases hp with h' | h' <;> simp [h'])]
        exact (matchTail_eq_some_iff rest 'D' 'd' n).mpr ⟨mid, d, hrest, hdd, hne, hdig, hval⟩

theorem simpleMatch_eq_some_iff (s : String) (n : Nat) :
    simpleMatch s = some n ↔ spelledSimple s n := by
  unfold simpleMatch spelledSimple
  exact matchTail_eq_some_iff s.data 'd' 'D' n

theorem isoMatch_eq_none_of_spelledSimple (s : String) (n : Nat)
    (h : spelledSimple s n) : isoMatch s = none := by
  obtain ⟨mid, d, hdata, hdd, hne, hdig, hval⟩ := h
  cases mid with
  | nil => exact absurd rfl hne
  | cons c0 cs0 =>
      have h0 : Char.isDigit c0 = true := by
        simp only [List.all_cons, Bool.and_eq_true] at hdig
        exact hdig.1
      have hq : s.data = c0 :: (cs0 ++ [d]) := by simpa using hdata
      have hP : (c0 == 'P' || c0 == 'p') = false := by
        have h1 : c0 ≠ 'P' := by
          intro he
          rw [he] at h0
          exact absurd h0 (by decide)
        have h2 : c0 ≠ 'p' := by
          intro he
          rw [he] at h0
          exact absurd h0 (by decide)
        simp [h1, h2]
      simp [isoMatch, hq, hP]

/-! ## Claim theorems -/

/-- C1 counterexample: with a policy whose first declared output is not the
output named "riskBand", `resolveBandLabel` at claim index 0 returns the
first output's label "ALPHA", not the label "BETA" that the band table of
the "riskBand" output holds at that index. -/
theorem resolveBandLabel_first_output_cx :
    resolveBandLabel [(("riskBand" : String), ClaimValue.num 0)] (some polTwoOutputs) = ("ALPHA") ∧
    ((polTwoOutputs.outputs.find? (fun o => o.name == ("riskBand"))).bind
        (fun o => o.derive.bands)).bind (fun bs => bs.get? 0) = some { label := ("BETA") } ∧
    ((("ALPHA" : String)) == (("BETA" : String))) = false := by
  refine ⟨by decide, by decide, by decide⟩

/-- C1 (amended): band-mode claim resolution reads the claim under the
canonical name "riskBand" (else the secondary name "outputValue"), coerces
it to an integer index, and looks that index up in the band table of the
policy's FIRST declared output: an index within that table returns exactly
that table's label, and an index outside both that table and the built-in
default table returns the synthesized string "Band <index>". -/
theorem resolveBandLabel_amended (claims : ClaimMap) (p? : Option Policy) :
    (∀ bs b, policyFirstBands p? = some bs →
        optIndex bs (claimBandIndex claims) = some b →
        resolveBandLabel claims p? = b.label) ∧
    ((policyFirstBands p?).bind (fun bs => optIndex bs (claimBandIndex claims)) = none →
        optIndex RISK_BANDS (claimBandIndex claims) = none →
        resolveBandLabel claims p? = ("Band ") ++ renderIdx (claimBandIndex claims)) := by
  constructor
  · intro bs b h1 h2
    simp [resolveBandLabel, h1, h2]
  · intro h1 h2
    simp [resolveBandLabel, h1, h2]

/-- C1 amended witness: index 1 hits the middle label of the first output's
three-entry table; index 9 falls outside both tables. -/
theorem resolveBandLabel_amended_w :
    resolveBandLabel [(("riskBand" : String), ClaimValue.num 1)] (some polThreeBands) = ("B1") ∧
    resolveBandLabel [(("riskBand" : String), ClaimValue.num 9)] (some polThreeBands) = ("Band 9") := by
  constructor
  · exact (resolveBandLabel_amended [(("riskBand" : String), ClaimValue.num 1)]
      (some polThreeBands)).1
      [ { label := ("B0") }, { label := ("B1") }, { label := ("B2") } ]
      { label := ("B1") } (by decide) (by decide)
  · have h := (resolveBandLabel_amended [(("riskBand" : String), ClaimValue.num 9)]
      (some polThreeBands)).2 (by decide) (by decide)
    rw [h]
    decide

/-- C2 counterexample: the demo scorer gives the second scenario score 75
(not 65) and band LOW (not MEDIUM), and the third scenario band MEDIUM
(not HIGH). -/
theorem expectedScore_cx :
    expectedScore 4500 85 = 75 ∧
    ((expectedScore 4500 85) == ((65 : Int))) = false ∧
    expectedBand (expectedScore 4500 85) = ("LOW") ∧
    ((expectedBand (expectedScore 4500 85)) == (("MEDIUM" : String))) = false ∧
    expectedScore 7000 110 = 50 ∧
    expectedBand (expectedScore 7000 110) = ("MEDIUM") ∧
    ((expectedBand (expectedScore 7000 110)) == (("HIGH" : String))) = false := by
  decide

/-- C2 (amended): the reference score starts at baseline 50, adds
independent bonuses per satisfied threshold, and is clamped to [50, 100];
the three documented scenarios score 100 (band LOW), 75 (band LOW) and 50
(band MEDIUM). -/
theorem expectedScore_spec :
    (∀ m s : Int, 50 ≤ expectedScore m s ∧ expectedScore m s ≤ 100) ∧
    expectedScore 2500 72 = 100 ∧ expectedBand (expectedScore 2500 72) = ("LOW") ∧
    expectedScore 4500 85 = 75 ∧ expectedBand (expectedScore 4500 85) = ("LOW") ∧
    expectedScore 7000 110 = 50 ∧ expectedBand (expectedScore 7000 110) = ("MEDIUM") := by
  refine ⟨?_, by decide, by decide, by decide, by decide, by decide, by decide⟩
  intro m s
  simp only [expectedScore, min_def]
  split_ifs <;> constructor <;> omega

/-- C3 counterexample: the credit-domain validator accepts a policy whose
subject type is "vehicle" — a subject of the other domain — recording the
subject type without any check. -/
theorem subject_type_check_cx :
    validatePolicyCredit creditForeignSubject =
      VResult.passed [("Version: 0.1.0"), ("Subject type: vehicle"),
        ("Has \"approved\" output (boolean)"), ("Uses PASS_FAIL derivation"),
        ("Approval status is disclosed")] := by
  decide

/-- C3 (amended): the risk-domain validator fatally rejects any policy
(past the version check) whose subject type is not "vehicle"; the
credit-domain validator records the subject type without checking it and
never rejects on subject type. -/
theorem subject_type_check (p : Policy) :
    (jsStartsWith p.version ("0.") = true → p.subject.type ≠ ("vehicle") →
        validatePolicyRisk p = VResult.rejected (VErr.badSubject p.subject.type)) ∧
    (∀ t, validatePolicyCredit p = VResult.rejected (VErr.badSubject t) → False) := by
  constructor
  · intro h1 h2
    have h2' : (p.subject.type == ("vehicle")) = false := beq_eq_false_iff_ne.mpr h2
    simp [validatePolicyRisk, h1, h2']
  · intro t h
    unfold validatePolicyCredit at h
    split at h
    · split at h <;> simp_all
    · simp_all

/-- C3 amended witness: a risk policy with subject type "boat" is rejected
with that subject type. -/
theorem subject_type_check_w :
    validatePolicyRisk polBoat = VResult.rejected (VErr.badSubject ("boat")) := by
  exact (subject_type_check polBoat).1 (by decide) (by decide)

/-- C4 (confirmed): the freshness check passes exactly when the proof age
in whole days is at most the resolved TTL; age equal to the TTL is fresh,
age equal to TTL + 1 is expired (the fatal branch), in both domains. -/
theorem freshness_boundary (now fb : Int) (c : Option Int) (p? : Option Policy) :
    (riskCheckFreshness now c fb p? = FreshStatus.fresh ↔
      ageDaysOf now c fb ≤ (ttlDaysOfPolicy ("P90D") 90 p? : Int)) ∧
    (creditCheckFreshness now c fb p? = FreshStatus.fresh ↔
      ageDaysOf now c fb ≤ (ttlDaysOfPolicy ("P30D") 30 p? : Int)) ∧
    (ageDaysOf now c fb = (ttlDaysOfPolicy ("P90D") 90 p? : Int) →
      riskCheckFreshness now c fb p? = FreshStatus.fresh) ∧
    (ageDaysOf now c fb = (ttlDaysOfPolicy ("P90D") 90 p? : Int) + 1 →
      riskCheckFreshness now c fb p? = FreshStatus.expired) ∧
    (ageDaysOf now c fb = (ttlDaysOfPolicy ("P30D") 30 p? : Int) →
      creditCheckFreshness now c fb p? = FreshStatus.fresh) ∧
    (ageDaysOf now c fb = (ttlDaysOfPolicy ("P30D") 30 p? : Int) + 1 →
      creditCheckFreshness now c fb p? = FreshStatus.expired) := by
  unfold riskCheckFreshness creditCheckFreshness checkFreshnessWith
  refine ⟨?_, ?_, ?_, ?_, ?_, ?_⟩
  · split_ifs with h <;> simp [h]
  · split_ifs with h <;> simp [h]
  · intro he
    split_ifs with h
    · rfl
    · omega
  · intro he
    split_ifs with h
    · omega
    · rfl
  · intro he
    split_ifs with h
    · rfl
    · omega
  · intro he
    split_ifs with h
    · omega
    · rfl

/-- C4 witness: concrete timestamps at exactly the TTL and one day past
it, for both domain defaults. -/
theorem freshness_boundary_w :
    riskCheckFreshness (86400000 * 90) (some 0) 0 none = FreshStatus.fresh ∧
    riskCheckFreshness (86400000 * 91) (some 0) 0 none = FreshStatus.expired ∧
    creditCheckFreshness (86400000 * 30) (some 0) 0 none = FreshStatus.fresh ∧
    creditCheckFreshness (86400000 * 31) (some 0) 0 none = FreshStatus.expired := by
  refine ⟨(freshness_boundary _ _ _ _).2.2.1 (by decide),
          (freshness_boundary _ _ _ _).2.2.2.1 (by decide),
          (freshness_boundary _ _ _ _).2.2.2.2.1 (by decide),
          (freshness_boundary _ _ _ _).2.2.2.2.2 (by decide)⟩

/-- C5 (confirmed): every TTL string of the shape P<N>D or <N>d
(case-insensitive) resolves to N days; every string matching neither
shape, and an absent policy, resolves to the domain default (90 days for
the risk domain, 30 days for the credit domain). -/
theorem ttl_parsing_spec :
    (∀ (p : Policy) (s : String), ttlOf (some p) = some s →
      (∀ n, spelledIso s n →
        ttlDaysOfPolicy ("P90D") 90 (some p) = n ∧ ttlDaysOfPolicy ("P30D") 30 (some p) = n) ∧
      (∀ n, spelledSimple s n →
        ttlDaysOfPolicy ("P90D") 90 (some p) = n ∧ ttlDaysOfPolicy ("P30D") 30 (some p) = n) ∧
      ((∀ n, ¬ spelledIso s n) → (∀ n, ¬ spelledSimple s n) →
        ttlDaysOfPolicy ("P90D") 90 (some p) = 90 ∧ ttlDaysOfPolicy ("P30D") 30 (some p) = 30)) ∧
    (ttlDaysOfPolicy ("P90D") 90 none = 90 ∧ ttlDaysOfPolicy ("P30D") 30 none = 30) := by
  constructor
  · intro p s hts
    refine ⟨?_, ?_, ?_⟩
    · intro n hn
      have hiso : isoMatch s = some n := (isoMatch_eq_some_iff s n).mpr hn
      constructor <;> simp [ttlDaysOfPolicy, hts, hiso]
    · intro n hn
      have hsim : simpleMatch s = some n := (simpleMatch_eq_some_iff s n).mpr hn
      have hiso : isoMatch s = none := isoMatch_eq_none_of_spelledSimple s n hn
      constructor <;> simp [ttlDaysOfPolicy, hts, hiso, hsim]
    · intro hni hns
      have hiso : isoMatch s = none := by
        cases hq : isoMatch s with
        | none => rfl
        | some m => exact absurd ((isoMatch_eq_some_iff s m).mp hq) (hni m)
      have hsim : simpleMatch s = none := by
        cases hq : simpleMatch s with
        | none => rfl
        | some m => exact absurd ((simpleMatch_eq_some_iff s m).mp hq) (hns m)
      constructor <;> simp [ttlDaysOfPolicy, hts, hiso, hsim]
  · constructor <;> decide

/-- C5 witness: the TTL string "P45D" resolves to 45 days in both domains. -/
theorem ttl_parsing_spec_w :
    ttlDaysOfPolicy ("P90D") 90 (some polP45) = 45 ∧
    ttlDaysOfPolicy ("P30D") 30 (some polP45) = 45 := by
  refine (ttl_parsing_spec.1 polP45 ("P45D") (by decide)).1 45 ?_
  exact ⟨'P', ['4', '5'], 'D', by decide, Or.inl rfl, Or.inl rfl, by decide, by decide, by decide⟩

/-- C6 (confirmed): both validators accept exactly the policies whose
version string starts with "0."; any other version prefix is a fatal
version rejection, and with an accepted version no version rejection can
arise. -/
theorem version_gate (p : Policy) :
    (jsStartsWith p.version ("0.") = false →
        validatePolicyRisk p = VResult.rejected (VErr.badVersion p.version) ∧
        validatePolicyCredit p = VResult.rejected (VErr.badVersion p.version)) ∧
    (jsStartsWith p.version ("0.") = true →
        (∀ v, validatePolicyRisk p = VResult.rejected (VErr.badVersion v) → False) ∧
        (∀ v, validatePolicyCredit p = VResult.rejected (VErr.badVersion v) → False)) := by
  constructor
  · intro h
    constructor <;> simp [validatePolicyRisk, validatePolicyCredit, h]
  · intro h
    constructor <;> intro v hv
    · unfold validatePolicyRisk at hv
      rw [h] at hv
      simp only [if_true] at hv
      split at hv
      · split at hv <;> simp_all
      · simp_all
    · unfold validatePolicyCredit at hv
      rw [h] at hv
      simp only [if_true] at hv
      split at hv <;> simp_all

/-- C6 witness: the version "1.0.0" is rejected by both validators. -/
theorem version_gate_w :
    validatePolicyRisk polBadVersion = VResult.rejected (VErr.badVersion ("1.0.0")) ∧
    validatePolicyCredit polBadVersion = VResult.rejected (VErr.badVersion ("1.0.0")) := by
  exact (version_gate polBadVersion).1 (by decide)

/-- C7 (confirmed): a shared proof with a non-null revocation timestamp
fails fatally with an EMPTY step trace — before policy resolution,
validation or freshness run; an expiry strictly in the past, and a missing
policy id, likewise fail fatally with an empty trace. -/
theorem shared_preconditions_first (env : VerifierEnv) (sp : SharedProof) (now : Int) :
    (sp.revokedAt.isSome = true →
        verifySharedProof env sp now = ([], Outcome.fatal FatalReason.revoked)) ∧
    (∀ e, sp.expiresAt = some e → e < now →
        (verifySharedProof env sp now).1 = [] ∧
        ∃ r, (verifySharedProof env sp now).2 = Outcome.fatal r) ∧
    (sp.policyId = none →
        (verifySharedProof env sp now).1 = [] ∧
        ∃ r, (verifySharedProof env sp now).2 = Outcome.fatal r) := by
  refine ⟨?_, ?_, ?_⟩
  · intro h
    simp [verifySharedProof, h]
  · intro e he hlt
    by_cases hr : sp.revokedAt.isSome = true
    · have hv : verifySharedProof env sp now = ([], Outcome.fatal FatalReason.revoked) := by
        simp [verifySharedProof, hr]
      rw [hv]
      exact ⟨rfl, _, rfl⟩
    · have hx : isPastExpiry sp.expiresAt now = true := by simp [isPastExpiry, he, hlt]
      have hv : verifySharedProof env sp now = ([], Outcome.fatal FatalReason.sharedExpired) := by
        simp [verifySharedProof, hr, hx]
      rw [hv]
      exact ⟨rfl, _, rfl⟩
  · intro h
    by_cases hr : sp.revokedAt.isSome = true
    · have hv : verifySharedProof env sp now = ([], Outcome.fatal FatalReason.revoked) := by
        simp [verifySharedProof, hr]
      rw [hv]
      exact ⟨rfl, _, rfl⟩
    · by_cases hx : isPastExpiry sp.expiresAt now = true
      · have hv : verifySharedProof env sp now = ([], Outcome.fatal FatalReason.sharedExpired) := by
          simp [verifySharedProof, hr, hx]
        rw [hv]
        exact ⟨rfl, _, rfl⟩
      · have hv : verifySharedProof env sp now = ([], Outcome.fatal FatalReason.noPolicy) := by
          simp [verifySharedProof, hr, hx, h]
        rw [hv]
        exact ⟨rfl, _, rfl⟩

/-- C7 witness: a concrete revoked shared proof fails with the revoked
reason and an empty executed-step trace. -/
theorem shared_preconditions_first_w :
    verifySharedProof envTrivial spRevoked 0 = ([], Outcome.fatal FatalReason.revoked) :=
  (shared_preconditions_first envTrivial spRevoked 0).1 (by decide)

/-- C8 counterexample: a BAND-derived "riskBand" output with an empty band
table — and one with no band table at all — both pass the risk validator. -/
theorem band_table_cx :
    validatePolicyRisk emptyBandsPolicy =
      VResult.passed [("Version: 0.1.0"), ("Subject type: vehicle"),
        ("Has \"riskBand\" output (enum)"), ("Uses BAND derivation"), ("Risk bands: ")] ∧
    validatePolicyRisk noBandsPolicy =
      VResult.passed [("Version: 0.1.0"), ("Subject type: vehicle"),
        ("Has \"riskBand\" output (enum)"), ("Uses BAND derivation")] := by
  decide

/-- C8 (amended): when the target output's derivation kind is BAND the
validator only records the band labels when a table is present; it never
requires the table to be present or non-empty — validation passes for any
policy with an accepted version, subject "vehicle" and an output named
"riskBand", regardless of its band table. -/
theorem band_table_not_enforced (p : Policy) (o : Output)
    (h1 : jsStartsWith p.version ("0.") = true)
    (h2 : p.subject.type = ("vehicle"))
    (h3 : p.outputs.find? (fun q => q.name == ("riskBand")) = some o) :
    validatePolicyRisk p = VResult.passed (riskFindings p o) := by
  simp [validatePolicyRisk, h1, h2, h3]

/-- C8 amended witness: the empty-band-table policy passes and yields the
recorded findings. -/
theorem band_table_not_enforced_w :
    validatePolicyRisk emptyBandsPolicy =
      VResult.passed (riskFindings emptyBandsPolicy riskBandOutputEmpty) :=
  band_table_not_enforced emptyBandsPolicy riskBandOutputEmpty (by decide) (by decide) (by decide)

/-- C9 (confirmed): a claim value resolves to the approved outcome exactly
when it is numeric 1, boolean true, or the string "1"; a claims mapping
with neither an "approved" nor an "outputValue" key produces no approval
outcome at all — in particular never a positive one. -/
theorem pass_fail_resolution :
    (∀ v : ClaimValue, isApproved v = true ↔
        (v = ClaimValue.num 1 ∨ v = ClaimValue.bool true ∨ v = ClaimValue.str ("1"))) ∧
    (∀ claims : ClaimMap,
        List.lookup ("approved") claims = none →
        List.lookup ("outputValue") claims = none →
        approvedOutcomes claims = []) := by
  constructor
  · intro v
    cases v <;> simp [isApproved]
  · intro claims
    induction claims with
    | nil => intro _ _; rfl
    | cons kv rest ih =>
        intro h1 h2
        obtain ⟨k, v⟩ := kv
        by_cases hk : k = ("approved")
        · subst hk
          simp [List.lookup] at h1
        · by_cases hk2 : k = ("outputValue")
          · subst hk2
            simp [List.lookup] at h2
          · have hbk : (("approved" : String) == k) = false := beq_eq_false_iff_ne.mpr (Ne.symm hk)
            have hbk2 : (("outputValue" : String) == k) = false := beq_eq_false_iff_ne.mpr (Ne.symm hk2)
            have h1' : List.lookup ("approved") rest = none := by
              simp only [List.lookup, hbk] at h1
              exact h1
            have h2' : List.lookup ("outputValue") rest = none := by
              simp only [List.lookup, hbk2] at h2
              exact h2
            have hbk' : (k == ("approved" : String)) = false := beq_eq_false_iff_ne.mpr hk
            have hbk2' : (k == ("outputValue" : String)) = false := beq_eq_false_iff_ne.mpr hk2
            simp only [approvedOutcomes, hbk', hbk2', Bool.or_self, if_false]
            exact ih h1' h2'

/-- C9 witness: numeric 1 is approved; a mapping without the approval keys
yields no approval outcome. -/
theorem pass_fail_resolution_w :
    isApproved (ClaimValue.num 1) = true ∧
    approvedOutcomes [(("other" : String), ClaimValue.num 1)] = [] := by
  constructor
  · exact (pass_fail_resolution.1 (ClaimValue.num 1)).mpr (Or.inl rfl)
  · exact pass_fail_resolution.2 [(("other" : String), ClaimValue.num 1)] (by decide) (by decide)

/-- C10 (confirmed): for a policy whose first output's band table is
shorter than the built-in default table, a claim index beyond the policy
table but inside the default table resolves to the default table's label
at that index. -/
theorem default_band_gap (claims : ClaimMap) (p : Policy) (bs : List Band) (k : Nat)
    (h1 : policyFirstBands (some p) = some bs)
    (h2 : claimBandIndex claims = some ((k : Nat) : Int))
    (h3 : bs.length ≤ k) (h4 : k < 3) :
    RISK_BANDS.get? k = some (resolveBandLabel claims (some p)) := by
  have hk0 : ¬ ((k : Int) < 0) := by omega
  have hkk : ((k : Int)).toNat = k := by omega
  have hnone : optIndex bs (some ((k : Nat) : Int)) = none := by
    simp only [optIndex, if_neg hk0, hkk]
    exact List.get?_eq_none.mpr h3
  have hres : resolveBandLabel claims (some p) =
      match optIndex RISK_BANDS (some ((k : Nat) : Int)) with
      | some l => l
      | none => ("Band ") ++ renderIdx (some ((k : Nat) : Int)) := by
    simp [resolveBandLabel, h1, h2, hnone]
  have hopt : optIndex RISK_BANDS (some ((k : Nat) : Int)) = RISK_BANDS.get? k := by
    simp only [optIndex, if_neg hk0, hkk]
  rw [hres, hopt]
  interval_cases k <;> rfl

/-- C10 witness: a one-entry policy table with claim index 2 resolves to
the default table's "LOW". -/
theorem default_band_gap_w :
    RISK_BANDS.get? 2 =
      some (resolveBandLabel [(("riskBand" : String), ClaimValue.num 2)] (some polShort)) := by
  exact default_band_gap [(("riskBand" : String), ClaimValue.num 2)] polShort
    [ { label := ("ONLY") } ] 2 (by decide) (by decide) (by decide) (by decide)

end BindExamples
